import Mathlib

/-!
Verification of the SalesCompAgent intent-routing agent.

The Python sources are shallowly embedded: every LLM call
(`model.with_structured_output(Schema).invoke(...)` or a plain
`model.invoke(...)`) is an external collaborator, so its result is passed
in as an explicit argument; external side effects (slot lookup, booking,
email dispatch, reading the contest-URL resource) are recorded in an
explicit list of events returned next to the state update.  A LangGraph
node returns a partial state update (a Python dict with a subset of the
state keys); we model that as a record of `Option` fields merged into the
state by `applyUpdate`.
-/

/-- The conversation state threaded through the graph (`AgentState` TypedDict
in graph.py, extended with the optional `name`/`email` keys that the contest
handler writes). -/
structure AgentState where
  agent : String
  initialMessage : String
  responseToUser : String
  lnode : String
  category : String
  name : Option String := none
  email : Option String := none
deriving Repr, DecidableEq

/-- A partial state update as returned by a LangGraph node: each field is
`some v` when the returned dict contains that key, `none` when it omits it. -/
structure StateUpdate where
  agent : Option String := none
  initialMessage : Option String := none
  responseToUser : Option String := none
  lnode : Option String := none
  category : Option String := none
  name : Option (Option String) := none
  email : Option (Option String) := none
deriving Repr, DecidableEq

/-- Merge a node's partial update into the current state (LangGraph channel
update semantics for plain fields: last write wins, absent keys untouched). -/
def applyUpdate (s : AgentState) (u : StateUpdate) : AgentState where
  agent := u.agent.getD s.agent
  initialMessage := u.initialMessage.getD s.initialMessage
  responseToUser := u.responseToUser.getD s.responseToUser
  lnode := u.lnode.getD s.lnode
  category := u.category.getD s.category
  name := u.name.getD s.name
  email := u.email.getD s.email

/-- A node that returns `None` in Python (the graph.py placeholders) performs
no state update. -/
def applyNode (s : AgentState) : Option StateUpdate → AgentState
  | some u => applyUpdate s u
  | none => s

/-- Structured output schema of the classifier (`Category` in graph.py). -/
structure Category where
  category : String
deriving Repr, DecidableEq

/-- Structured output schema of the policy handler (`PolicyResponse`). -/
structure PolicyResponse where
  policy : String
  response : String
deriving Repr, DecidableEq

/-- Structured output schema of the commission handler (`CommissionResponse`). -/
structure CommissionResponse where
  commission : String
  calculation : String
  response : String
deriving Repr, DecidableEq

/-- `VALID_CATEGORIES` from graph.py. -/
def VALID_CATEGORIES : List String := ["policy", "commission", "contest", "ticket", "clarify"]

/-- LangGraph's `END` sentinel, the terminate marker returned by the router. -/
def END : String := "__end__"

namespace salesCompAgent

/-- `salesCompAgent.initial_classifier`: the classifier node.  The structured
LLM output is the `c` argument; the node returns the dict
`\x7blnode, responseToUser, category\x7d`. -/
def initial_classifier (c : Category) (_s : AgentState) : StateUpdate :=
  { lnode := some "initial_classifier",
    responseToUser := some "Classifier successful",
    category := some c.category }

/-- `salesCompAgent.main_router`: returns the category itself when it is one
of the five valid categories, `END` otherwise. -/
def main_router (s : AgentState) : String :=
  if s.category ∈ VALID_CATEGORIES then s.category else END

/-- `salesCompAgent.policy_agent`: one structured call (result `p`), then
returns response plus policy attribution; `category` is set to the returned
policy string and `lnode` to the literal `"initial_classifier"` (as written
in the source). -/
def policy_agent (p : PolicyResponse) (_s : AgentState) : StateUpdate :=
  { lnode := some "initial_classifier",
    responseToUser := some (p.response ++ " \n\n Source: " ++ p.policy),
    category := some p.policy }

/-- `salesCompAgent.commission_agent`: one structured call (result `c`), then
returns response plus calculation and commission; `category` is set to the
calculation string and `lnode` to the literal `"initial_classifier"` (as
written in the source). -/
def commission_agent (c : CommissionResponse) (_s : AgentState) : StateUpdate :=
  { lnode := some "initial_classifier",
    responseToUser :=
      some (c.response ++ " \n\n Source: " ++ c.calculation ++ ".\n Commission: " ++ c.commission),
    category := some c.calculation }

/-- Placeholder `salesCompAgent.contest_agent` in graph.py: prints and
returns `None`, i.e. no state update. -/
def contest_agent (_s : AgentState) : Option StateUpdate := none

/-- Placeholder `salesCompAgent.ticket_agent` in graph.py: returns `None`. -/
def ticket_agent (_s : AgentState) : Option StateUpdate := none

/-- Placeholder `salesCompAgent.clarify_agent` in graph.py: returns `None`. -/
def clarify_agent (_s : AgentState) : Option StateUpdate := none

/-- The node names registered on the graph in `salesCompAgent.__init__`. -/
def registered_nodes : List String :=
  ["classifier", "policy", "commission", "contest", "ticket", "clarify"]

/-- The nodes of graph.py whose bound handler is a placeholder returning
`None` (contest, ticket, clarify). -/
def placeholder_nodes : List String := ["contest", "ticket", "clarify"]

/-- One conversation turn of the compiled graph in graph.py: classifier,
then the conditional edge `main_router`, then the node it names (`END`
terminates with no handler).  `c`, `p`, `cm` are the structured LLM outputs
consumed by the classifier, policy and commission nodes. -/
def run_turn (c : Category) (p : PolicyResponse) (cm : CommissionResponse)
    (s0 : AgentState) : AgentState :=
  let s1 := applyUpdate s0 (initial_classifier c s0)
  let r := main_router s1
  if r = "policy" then applyUpdate s1 (policy_agent p s1)
  else if r = "commission" then applyUpdate s1 (commission_agent cm s1)
  else if r = "contest" then applyNode s1 (contest_agent s1)
  else if r = "ticket" then applyNode s1 (ticket_agent s1)
  else if r = "clarify" then applyNode s1 (clarify_agent s1)
  else s1

end salesCompAgent

/-- External-collaborator calls made by a handler, in program order.
`structured sch` is a `with_structured_output(sch).invoke(...)` model call;
`plainInvoke payload` is a plain `model.invoke` on a prompt embedding
`payload`; `getSlots` is `handle_appointment_request()`; `book slot email`
is `book_appointment(slot, email)`; `readContestUrl` reads contesturl.txt;
`sendEmail` is `send_email(from, to, subject, html)` (the `to` field is an
`Option` because the contest handler passes the possibly-absent model field
through). -/
inductive ExtCall where
  | structured (schema : String)
  | plainInvoke (payload : String)
  | getSlots
  | book (slot : Option String) (email : Option String)
  | readContestUrl
  | sendEmail (fromE : String) (toE : Option String) (subject : String) (html : String)
deriving Repr, DecidableEq

/-- The emails dispatched within a call trace. -/
def emailsSent : List ExtCall → List ExtCall
  | [] => []
  | ExtCall.sendEmail f t su h :: rest => ExtCall.sendEmail f t su h :: emailsSent rest
  | _ :: rest => emailsSent rest

/-- Structured output schema of the contest handler (`ContestDecision` in
contest_agent.py); `timeslot` is an optional datetime, rendered here as an
optional string. -/
structure ContestDecision where
  nextsteps : String
  decision : String
  timeslot : Option String := none
  email : Option String
  name : Option String
deriving Repr, DecidableEq

/-- The external collaborators the contest handler consults:
`available_slots` is the result of `handle_appointment_request()`;
`format_slots` is the plain model completion formatting a slot list
embedded in the time-slot prompt; `book_result` is the string returned by
`book_appointment(slot, email)`; `contest_url` is the content of
contesturl.txt; `md` is `markdown2.markdown`. -/
structure ContestEnv where
  available_slots : String
  format_slots : String → String
  book_result : Option String → Option String → String
  contest_url : String
  md : String → String

namespace ContestAgent

/-- `ContestAgent.contest_agent` from src/contest_agent.py: one structured
call produces decision `d`; the branch on `d.decision` selects the response
and side effects; every branch returns `category = "contest"` and
`lnode = "contest_agent"`.  Next to the state update we return the list of
external calls in program order. -/
def contest_agent (env : ContestEnv) (d : ContestDecision) (_s : AgentState) :
    StateUpdate × List ExtCall :=
  if d.decision = "BookAppointment" then
    let available_slots := env.available_slots
    let user_response := env.format_slots available_slots
    ({ lnode := some "contest_agent",
       responseToUser := some user_response,
       category := some "contest",
       name := some d.name,
       email := some d.email },
     [ExtCall.structured "ContestDecision", ExtCall.getSlots,
      ExtCall.plainInvoke available_slots])
  else if d.decision = "ConfirmAppointment" then
    let user_response := env.book_result d.timeslot d.email
    let html_content := env.md env.contest_url
    ({ lnode := some "contest_agent",
       responseToUser := some user_response,
       category := some "contest" },
     [ExtCall.structured "ContestDecision",
      ExtCall.book d.timeslot d.email,
      ExtCall.readContestUrl,
      ExtCall.sendEmail "malihajburney@gmail.com" d.email
        "Please complete the SPIF/Sales Contest Intake Form" html_content])
  else if d.decision = "AppointmentComplete" then
    ({ lnode := some "contest_agent",
       responseToUser := some d.nextsteps,
       category := some "contest" },
     [ExtCall.structured "ContestDecision"])
  else
    ({ lnode := some "contest_agent",
       responseToUser := some d.nextsteps,
       category := some "contest" },
     [ExtCall.structured "ContestDecision"])

end ContestAgent

/-- Structured output schema of the ticket handler (`TicketResponse`). -/
structure TicketResponse where
  response : String
  createTicket : Bool
deriving Repr, DecidableEq

/-- Structured output schema for the drafted support email (`TicketEmail`). -/
structure TicketEmail where
  response : String
  htmlEmail : String
deriving Repr, DecidableEq

namespace TicketAgent

/-- `TicketAgent.ticket_agent` from src/ticket_agent.py: one structured call
produces `tr`; when `tr.createTicket` a second structured call drafts `te`
and the email is dispatched to the fixed support address; either way the
returned dict carries `tr.response`, `category = "ticket"`,
`lnode = "ticket_agent"`. -/
def ticket_agent (tr : TicketResponse) (te : TicketEmail) (_s : AgentState) :
    StateUpdate × List ExtCall :=
  let calls :=
    if tr.createTicket then
      [ExtCall.structured "TicketResponse", ExtCall.structured "TicketEmail",
       ExtCall.sendEmail "malihajburney@gmail.com" (some "i_jahangir@hotmail.com")
         "New Ticket from SalesCompAgent" te.htmlEmail]
    else
      [ExtCall.structured "TicketResponse"]
  ({ lnode := some "ticket_agent",
     responseToUser := some tr.response,
     category := some "ticket" },
   calls)

end TicketAgent

/-- The four policy names enumerated by the policy prompt in graph.py. -/
def fourPolicyNames : List String :=
  ["Minimum commission guarantee", "Air cover bonus", "Windfall activation", "Leave of absence"]

/-- A concrete state used in closed-form evaluations. -/
def testState : AgentState :=
  { agent := "", initialMessage := "What is minimum commission guarantee?",
    responseToUser := "", lnode := "", category := "" }

/-- A concrete collaborator environment used in closed-form evaluations. -/
def testContestEnv : ContestEnv :=
  { available_slots := "Mon 9am; Tue 10am",
    format_slots := fun slots => slots,
    book_result := fun _ _ => "Your appointment is booked.",
    contest_url := "https://example.com/contest-form",
    md := fun s => s }

/-- A concrete contest decision in the BookAppointment stage. -/
def testBookDecision : ContestDecision :=
  { nextsteps := "please choose a slot", decision := "BookAppointment",
    timeslot := none, email := some "ada@example.com", name := some "Ada Lovelace" }

/-- A concrete contest decision in the ConfirmAppointment stage with both
optional fields absent. -/
def testConfirmDecision : ContestDecision :=
  { nextsteps := "confirming", decision := "ConfirmAppointment",
    timeslot := none, email := none, name := none }

/-- C1: the router is a total deterministic function of the category string:
it returns the category itself on the five valid values and `END` on every
other string. -/
theorem c1_router_total (s : AgentState) :
    salesCompAgent.main_router s =
      if s.category = "policy" ∨ s.category = "commission" ∨ s.category = "contest"
          ∨ s.category = "ticket" ∨ s.category = "clarify"
      then s.category else END := by
  simp only [salesCompAgent.main_router, VALID_CATEGORIES, List.mem_cons,
    List.not_mem_nil, or_false]

/-- C2 counterexample: `policy_agent` copies the model's `policy` field into
`category` unchecked, so a structured output whose `policy` field is the
literal string "policy" makes the final category "policy", which is not one
of the four fixed policy names. -/
theorem c2_policy_counterexample :
    (applyUpdate testState
      (salesCompAgent.policy_agent
        { policy := "policy", response := "Here is the answer" } testState)).category
      = "policy" ∧ "policy" ∉ fourPolicyNames := by
  exact ⟨rfl, by decide⟩

/-- C2 (amended): the policy handler sets `category` to the model's `policy`
field and `responseToUser` to the response followed by the policy
attribution; hence whenever the model returns one of the four fixed policy
names, the final category is that name, lies in the four-name set, and is
never the literal "policy". -/
theorem c2_policy_category (p : PolicyResponse) (s : AgentState)
    (h : p.policy ∈ fourPolicyNames) :
    (applyUpdate s (salesCompAgent.policy_agent p s)).category = p.policy ∧
    (applyUpdate s (salesCompAgent.policy_agent p s)).category ∈ fourPolicyNames ∧
    (applyUpdate s (salesCompAgent.policy_agent p s)).category ≠ "policy" ∧
    (applyUpdate s (salesCompAgent.policy_agent p s)).responseToUser
      = p.response ++ " \n\n Source: " ++ p.policy := by
  refine ⟨rfl, h, ?_, rfl⟩
  intro hc
  rw [show (applyUpdate s (salesCompAgent.policy_agent p s)).category = p.policy from rfl] at hc
  rw [hc] at h
  exact absurd h (by decide)

/-- Witness for C2: the amended theorem at a concrete model output naming the
leave-of-absence policy. -/
theorem c2_policy_category_witness :
    ("Leave of absence" ∈ fourPolicyNames) ∧
    ((applyUpdate testState
        (salesCompAgent.policy_agent
          { policy := "Leave of absence", response := "ok" } testState)).category
        = "Leave of absence" ∧
      (applyUpdate testState
        (salesCompAgent.policy_agent
          { policy := "Leave of absence", response := "ok" } testState)).category
        ∈ fourPolicyNames ∧
      (applyUpdate testState
        (salesCompAgent.policy_agent
          { policy := "Leave of absence", response := "ok" } testState)).category
        ≠ "policy" ∧
      (applyUpdate testState
        (salesCompAgent.policy_agent
          { policy := "Leave of absence", response := "ok" } testState)).responseToUser
        = "ok" ++ " \n\n Source: " ++ "Leave of absence") :=
  ⟨by decide,
    c2_policy_category { policy := "Leave of absence", response := "ok" } testState (by decide)⟩

/-- C3: evaluating the code at a policy-handled turn shows the bug: both
`policy_agent` and `commission_agent` return `lnode = "initial_classifier"`
instead of their own identifiers, while the classifier, contest and ticket
components do name themselves. -/
theorem c3_lnode_mismatch :
    (salesCompAgent.policy_agent
      { policy := "Leave of absence", response := "r" } testState).lnode
      = some "initial_classifier" ∧
    (salesCompAgent.policy_agent
      { policy := "Leave of absence", response := "r" } testState).lnode
      ≠ some "policy_agent" ∧
    (salesCompAgent.commission_agent
      { commission := "0.05", calculation := "100000/2000000", response := "r" } testState).lnode
      = some "initial_classifier" ∧
    (salesCompAgent.commission_agent
      { commission := "0.05", calculation := "100000/2000000", response := "r" } testState).lnode
      ≠ some "commission_agent" ∧
    (salesCompAgent.initial_classifier { category := "policy" } testState).lnode
      = some "initial_classifier" ∧
    (ContestAgent.contest_agent testContestEnv testBookDecision testState).1.lnode
      = some "contest_agent" ∧
    (TicketAgent.ticket_agent { response := "r", createTicket := false }
      { response := "r", htmlEmail := "<p>x</p>" } testState).1.lnode
      = some "ticket_agent" := by
  refine ⟨rfl, by decide, rfl, by decide, rfl, rfl, rfl⟩

/-- C4: for every decision string the model can return, the contest handler
returns `category = "contest"`, never the sub-decision value. -/
theorem c4_contest_category (env : ContestEnv) (d : ContestDecision) (s : AgentState) :
    (ContestAgent.contest_agent env d s).1.category = some "contest" := by
  unfold ContestAgent.contest_agent
  split_ifs <;> rfl

/-- C5: in the BookAppointment branch the handler first fetches the slots,
then formats them with a plain (non-structured) completion over those slots,
and returns that formatted list as `responseToUser` together with the
in-progress `name` and `email` fields of the decision. -/
theorem c5_book_appointment (env : ContestEnv) (d : ContestDecision) (s : AgentState)
    (h : d.decision = "BookAppointment") :
    (ContestAgent.contest_agent env d s).2
      = [ExtCall.structured "ContestDecision", ExtCall.getSlots,
         ExtCall.plainInvoke env.available_slots] ∧
    (ContestAgent.contest_agent env d s).1.responseToUser
      = some (env.format_slots env.available_slots) ∧
    (ContestAgent.contest_agent env d s).1.name = some d.name ∧
    (ContestAgent.contest_agent env d s).1.email = some d.email := by
  unfold ContestAgent.contest_agent
  rw [if_pos h]
  exact ⟨rfl, rfl, rfl, rfl⟩

/-- Witness for C5: the theorem at the concrete test environment and a
concrete BookAppointment decision. -/
theorem c5_book_appointment_witness :
    testBookDecision.decision = "BookAppointment" ∧
    ((ContestAgent.contest_agent testContestEnv testBookDecision testState).2
        = [ExtCall.structured "ContestDecision", ExtCall.getSlots,
           ExtCall.plainInvoke "Mon 9am; Tue 10am"] ∧
      (ContestAgent.contest_agent testContestEnv testBookDecision testState).1.responseToUser
        = some "Mon 9am; Tue 10am" ∧
      (ContestAgent.contest_agent testContestEnv testBookDecision testState).1.name
        = some (some "Ada Lovelace") ∧
      (ContestAgent.contest_agent testContestEnv testBookDecision testState).1.email
        = some (some "ada@example.com")) :=
  ⟨rfl, c5_book_appointment testContestEnv testBookDecision testState rfl⟩

/-- C6: the ticket handler dispatches an email to the fixed support address
if and only if `createTicket` is true; when true the trace is exactly the
first structured call, the second structured call drafting the body, and one
email carrying that drafted body; when false no email is sent.  In both
cases `responseToUser` is the TicketResponse's `response` and `category` is
"ticket". -/
theorem c6_ticket_email (tr : TicketResponse) (te : TicketEmail) (s : AgentState) :
    (TicketAgent.ticket_agent tr te s).2
      = (if tr.createTicket then
          [ExtCall.structured "TicketResponse", ExtCall.structured "TicketEmail",
           ExtCall.sendEmail "malihajburney@gmail.com" (some "i_jahangir@hotmail.com")
             "New Ticket from SalesCompAgent" te.htmlEmail]
         else [ExtCall.structured "TicketResponse"]) ∧
    emailsSent (TicketAgent.ticket_agent tr te s).2
      = (if tr.createTicket then
          [ExtCall.sendEmail "malihajburney@gmail.com" (some "i_jahangir@hotmail.com")
            "New Ticket from SalesCompAgent" te.htmlEmail]
         else []) ∧
    (TicketAgent.ticket_agent tr te s).1.responseToUser = some tr.response ∧
    (TicketAgent.ticket_agent tr te s).1.category = some "ticket" := by
  rcases tr with ⟨resp, ct⟩
  cases ct <;> exact ⟨rfl, rfl, rfl, rfl⟩

/-- C7: evaluating the wiring of graph.py at a contest-classified turn: the
router dispatches to the "contest" node, which is registered to the
placeholder; the placeholder is invoked at runtime (no startup validation
rejects it) and returns no update, so the turn terminates with the
classifier's own "Classifier successful" as the user-facing response. -/
theorem c7_placeholder_invoked :
    salesCompAgent.main_router
      (applyUpdate testState
        (salesCompAgent.initial_classifier { category := "contest" } testState)) = "contest" ∧
    "contest" ∈ salesCompAgent.placeholder_nodes ∧
    "contest" ∈ salesCompAgent.registered_nodes ∧
    salesCompAgent.contest_agent
      (applyUpdate testState
        (salesCompAgent.initial_classifier { category := "contest" } testState)) = none ∧
    (salesCompAgent.run_turn { category := "contest" }
      { policy := "p", response := "r" }
      { commission := "c", calculation := "x", response := "r" } testState).responseToUser
      = "Classifier successful" := by
  refine ⟨by decide, by decide, by decide, rfl, by decide⟩

/-- C8: the commission handler's `responseToUser` is the model's response
followed by the structured `calculation` and `commission` fields verbatim,
and the returned update is a function of the model output alone (the handler
performs no computation on the state and no arithmetic of its own). -/
theorem c8_commission_response (c : CommissionResponse) (s s₂ : AgentState) :
    (salesCompAgent.commission_agent c s).responseToUser
      = some (c.response ++ " \n\n Source: " ++ c.calculation ++ ".\n Commission: " ++ c.commission) ∧
    salesCompAgent.commission_agent c s = salesCompAgent.commission_agent c s₂ :=
  ⟨rfl, rfl⟩

/-- C9: no component's returned update contains the `initialMessage` key, so
`initialMessage` survives the classifier, policy, commission, contest and
ticket steps, and a full graph turn, unchanged. -/
theorem c9_initial_message_immutable (c : Category) (p : PolicyResponse)
    (cm : CommissionResponse) (env : ContestEnv) (d : ContestDecision)
    (tr : TicketResponse) (te : TicketEmail) (s : AgentState) :
    (salesCompAgent.initial_classifier c s).initialMessage = none ∧
    (salesCompAgent.policy_agent p s).initialMessage = none ∧
    (salesCompAgent.commission_agent cm s).initialMessage = none ∧
    (ContestAgent.contest_agent env d s).1.initialMessage = none ∧
    (TicketAgent.ticket_agent tr te s).1.initialMessage = none ∧
    (applyUpdate s (ContestAgent.contest_agent env d s).1).initialMessage = s.initialMessage ∧
    (applyUpdate s (TicketAgent.ticket_agent tr te s).1).initialMessage = s.initialMessage ∧
    (salesCompAgent.run_turn c p cm s).initialMessage = s.initialMessage := by
  refine ⟨rfl, rfl, rfl, ?_, rfl, ?_, rfl, ?_⟩
  · unfold ContestAgent.contest_agent
    split_ifs <;> rfl
  · unfold ContestAgent.contest_agent
    split_ifs <;> rfl
  · unfold salesCompAgent.run_turn
    dsimp only
    split_ifs <;> rfl

/-- C10: in the ConfirmAppointment branch the booking collaborator receives
`(d.timeslot, d.email)` and the email collaborator receives `d.email` as the
recipient, with no presence check on either optional field. -/
theorem c10_confirm_no_presence_check (env : ContestEnv) (d : ContestDecision)
    (s : AgentState) (h : d.decision = "ConfirmAppointment") :
    (ContestAgent.contest_agent env d s).2
      = [ExtCall.structured "ContestDecision",
         ExtCall.book d.timeslot d.email,
         ExtCall.readContestUrl,
         ExtCall.sendEmail "malihajburney@gmail.com" d.email
           "Please complete the SPIF/Sales Contest Intake Form" (env.md env.contest_url)] := by
  unfold ContestAgent.contest_agent
  rw [if_neg (by rw [h]; decide), if_pos h]

/-- Witness for C10: a model output in the ConfirmAppointment stage whose
`email` and `timeslot` are both absent still triggers the booking call and
the email dispatch, both carrying `none`. -/
theorem c10_confirm_no_presence_check_witness :
    testConfirmDecision.decision = "ConfirmAppointment" ∧
    (ContestAgent.contest_agent testContestEnv testConfirmDecision testState).2
      = [ExtCall.structured "ContestDecision",
         ExtCall.book none none,
         ExtCall.readContestUrl,
         ExtCall.sendEmail "malihajburney@gmail.com" none
           "Please complete the SPIF/Sales Contest Intake Form"
           "https://example.com/contest-form"] :=
  ⟨rfl, c10_confirm_no_presence_check testContestEnv testConfirmDecision testState rfl⟩
